import Mathlib

/-!
Shallow embedding of the payment reconciliation core of the CRM backend
(`backend/app/api/v1/payments.py`, `backend/app/integration/razorpay.py`,
`backend/app/core/deps.py`), together with the data model of
`backend/app/models/payment.py` and the `PaymentEvent` / `Appointment`
rows it manipulates.

Modelling conventions:
 * UUIDs are `Nat`; parsing a UUID string is an abstract injected function
   `parse : String → Option Nat` (`uuid.UUID(s)` raising = `none`).
 * HMAC-SHA256 is an abstract injected function
   `hmac : String → String → String` (key, message ↦ hex digest);
   `hmac.compare_digest` is plain string equality.
 * SQLAlchemy `db.scalar(select(T).where(...))` is `List.find?` over the
   committed rows; `db.commit()` produces the new committed `DB`;
   a session closed without commit (`get_db`'s `finally: db.close()`)
   discards every in-memory mutation, so each endpoint returns the old
   `DB` unchanged on every path that does not reach a `db.commit()`.
 * Provider (Razorpay SDK) calls are injected data: the created order id,
   the fetched payment status, the refund response; receipt rendering and
   the notification enqueue are injected `Except` values so that a raised
   exception in them can be modelled.
 * Python truthiness of strings/dicts (`or` chains, `if not x`) is modelled
   explicitly: `None` and `""` (resp. the empty dict) are falsy.
 * Decimal amounts are `ℚ`; Python `round` is round-half-to-even.
-/

namespace CRM

/-- Source `app.models.payment.PaymentStatus` (string constants). -/
inductive PaymentStatus
  | CREATED
  | AUTHORIZED
  | CAPTURED
  | FAILED
  | REFUNDED
deriving DecidableEq

/-- Source `app.models.appointment.PaymentStatus` (imported as `ApptPayStatus`).
Modelled from the spec: the `Appointment` model file is not in the sources;
§3 gives its `payment_status` values UNPAID, PAID, FAILED, REFUNDED. -/
inductive ApptPayStatus
  | UNPAID
  | PAID
  | FAILED
  | REFUNDED
deriving DecidableEq

/-- Source `app.models.payment.PaymentProvider`. -/
inductive PaymentProvider
  | RAZORPAY
  | STRIPE
deriving DecidableEq

/-- Source `app.models.payment.Payment` row. -/
structure Payment where
  id : Nat
  tenant_id : Nat
  appointment_id : Nat
  customer_id : Nat
  provider : PaymentProvider
  provider_order_id : String
  provider_payment_id : Option String
  amount : ℚ
  currency : String
  status : PaymentStatus
deriving DecidableEq

/-- Source `app.models.payment_event.PaymentEvent` row.
Modelled from the spec: the `PaymentEvent` model file is not in the sources;
§3 gives its fields (the raw `payload` snapshot is not modelled — no claim
reads it back). -/
structure PaymentEvent where
  tenant_id : Nat
  provider : PaymentProvider
  event_type : String
  provider_event_id : Option String
  provider_order_id : Option String
  provider_payment_id : Option String
deriving DecidableEq

/-- Source `app.models.appointment.Appointment` row (the fields the payment code
touches). Modelled from the spec: the model file is not in the sources. -/
structure Appointment where
  id : Nat
  tenant_id : Nat
  customer_id : Nat
  amount_due : Option ℚ
  currency : Option String
  payment_status : ApptPayStatus
deriving DecidableEq

/-- Source `app.models.customer.Customer` row (contact fields used by order
creation's response). Modelled from the spec: the model file is not in the
sources. -/
structure Customer where
  id : Nat
  tenant_id : Nat
  full_name : String
  email : String
  phone : String
deriving DecidableEq

/-- The committed database state. -/
structure DB where
  payments : List Payment
  events : List PaymentEvent
  appointments : List Appointment
  customers : List Customer
deriving DecidableEq

/-- A raised `fastapi.HTTPException`. -/
structure HTTPError where
  status_code : Nat
  detail : String
deriving DecidableEq

/-- Python truthiness of an optional string: `None` and `""` are falsy. -/
def strTruthy : Option String → Bool
  | none => false
  | some s => s ≠ ""

/-- Python `a or b` on optional strings. -/
def pyOr (a b : Option String) : Option String :=
  if strTruthy a then a else b

/-- Python `a or b` where the final fallback has made the value a plain
string (`... or ""`). -/
def pyOrStr (a : Option String) (b : String) : String :=
  if strTruthy a then a.getD "" else b

/-- Python truthiness of an optional dict: `None` and `{}` are falsy. -/
def dictTruthy : Option (List (String × String)) → Bool
  | none => false
  | some l => l ≠ []

/-- Python `a or b` on optional dicts. -/
def pyOrDict (a b : Option (List (String × String))) :
    Option (List (String × String)) :=
  if dictTruthy a then a else b

/-- Python `dict.get(key)` on an association list. -/
def dictGet (l : List (String × String)) (k : String) : Option String :=
  (l.find? (fun kv => kv.1 = k)).map (fun kv => kv.2)

/-- Source `app.integration.razorpay.rupees_to_paisa` and the inlined copies in
payments.py: `int(round(float(amount) * 100))` on the exact decimal
`amount`. Python 3 `round` is round-half-to-even; `amount * 100` is the
(possibly unreduced) fraction `(100 * amount.num) / amount.den`, on which
the rounding is computed directly so that the whole pipeline stays
kernel-computable. `rupees_to_paisa_eq_round` below identifies it with
`round (amount * 100)` away from ties. -/
def rupees_to_paisa (q : ℚ) : ℤ :=
  let n : ℤ := 100 * q.num
  let d : ℤ := (q.den : ℤ)
  let f : ℤ := n.fdiv d
  let r : ℤ := n - f * d
  if 2 * r < d then f
  else if d < 2 * r then f + 1
  else if f % 2 = 0 then f else f + 1

/-- Source `app.integration.razorpay.verify_razorpay_webhook_signature`:
HMAC-SHA256 hex digest of the raw body under the webhook secret, compared
(constant time) with the supplied signature. -/
def verify_razorpay_webhook_signature (hmac : String → String → String)
    (raw_body : String) (signature : String) (webhook_secret : String) : Bool :=
  hmac webhook_secret raw_body = signature

/-- Source `app.integration.razorpay.verify_razorpay_checkout_signature`:
HMAC-SHA256 hex digest of `"{orderId}|{paymentId}"` under the key secret,
compared (constant time) with the supplied signature. -/
def verify_razorpay_checkout_signature (hmac : String → String → String)
    (order_id : String) (payment_id : String) (signature : String)
    (key_secret : String) : Bool :=
  hmac key_secret (order_id ++ "|" ++ payment_id) = signature

/-- One provider entity (`payload.payment.entity`, `payload.order.entity`
or `payload.refund.entity`); absent fields are `none`. -/
structure Entity where
  id : Option String := none
  order_id : Option String := none
  payment_id : Option String := none
  status : Option String := none
  notes : Option (List (String × String)) := none
deriving DecidableEq

/-- The parsed webhook JSON envelope: top-level `event` plus at most one of
the three entity shapes (absent or JSON-null ↦ `none`). -/
structure WebhookPayload where
  event : Option String := none
  payment : Option Entity := none
  order : Option Entity := none
  refund : Option Entity := none
deriving DecidableEq

/-- The fields `razorpay_webhook` extracts from the envelope
(payments.py lines 116-151). -/
structure Extracted where
  event_type : String
  event_id : Option String
  provider_order_id : String
  provider_payment_id : String
  status : String
  tenant_id_str : Option String
deriving DecidableEq

/-- Field extraction of `razorpay_webhook` (payments.py lines 116-151):
`event_id` falls through payment → order → refund entity ids;
`provider_order_id`, `provider_payment_id` and `status` use the `or`
chains of lines 131-147; the tenant hint comes from the first truthy
`notes` dict. -/
def extractWebhook (pj : WebhookPayload) : Extracted :=
  let payment_entity := pj.payment.getD {}
  let order_entity := pj.order.getD {}
  let refund_entity := pj.refund.getD {}
  let event_id := pyOr payment_entity.id (pyOr order_entity.id refund_entity.id)
  let provider_order_id :=
    pyOrStr payment_entity.order_id
      (pyOrStr order_entity.id (pyOrStr refund_entity.order_id ""))
  let provider_payment_id :=
    pyOrStr payment_entity.id (pyOrStr refund_entity.payment_id "")
  let status :=
    pyOrStr payment_entity.status
      (pyOrStr order_entity.status (pyOrStr refund_entity.status ""))
  let notes := (pyOrDict payment_entity.notes order_entity.notes).getD []
  { event_type := (pj.event).getD ""
    event_id := event_id
    provider_order_id := provider_order_id
    provider_payment_id := provider_payment_id
    status := status
    tenant_id_str := dictGet notes "tenant_id" }

/-- Payment resolution of `razorpay_webhook` (payments.py lines 153-166):
lookup by `(tenant hint, provider_order_id)` when the hint is truthy and
parses as a UUID, else (or on a miss) fall back to `provider_order_id`
alone. -/
def resolvePayment (parse : String → Option Nat) (db : DB)
    (ext : Extracted) : Option Payment :=
  let byHint : Option Payment :=
    if strTruthy ext.tenant_id_str ∧ ext.provider_order_id ≠ "" then
      match parse (ext.tenant_id_str.getD "") with
      | some t =>
          db.payments.find? (fun p =>
            decide (p.tenant_id = t ∧ p.provider_order_id = ext.provider_order_id))
      | none => none
    else none
  match byHint with
  | some p => some p
  | none =>
      if ext.provider_order_id ≠ "" then
        db.payments.find? (fun p => decide (p.provider_order_id = ext.provider_order_id))
      else none

/-- Webhook status mapping applied to the payment (payments.py lines
196-203): recognized provider statuses overwrite `Payment.status`
unconditionally; anything else leaves it. -/
def webhookMappedStatus (s : String) (current : PaymentStatus) : PaymentStatus :=
  if s = "authorized" then .AUTHORIZED
  else if s = "captured" then .CAPTURED
  else if s = "failed" then .FAILED
  else if s = "refunded" then .REFUNDED
  else current

/-- Mirror of a payment status onto `Appointment.payment_status`
(payments.py lines 210-216 and 259-293). -/
def mirrorApptStatus (s : PaymentStatus) (current : ApptPayStatus) : ApptPayStatus :=
  match s with
  | .CAPTURED => .PAID
  | .FAILED => .FAILED
  | .REFUNDED => .REFUNDED
  | _ => current

/-- The response returned by the webhook endpoint on success. -/
structure Ack where
  success : Bool
deriving DecidableEq

/-- Outcome of a request: a returned value or a raised `HTTPException`. -/
inductive Response (α : Type) where
  | ok (val : α)
  | error (e : HTTPError)
deriving DecidableEq

/-- Result of one request-scoped unit of work: the response (or raised
`HTTPException`) and the committed database after the session closes. -/
structure EndpointResult (α : Type) where
  response : Response α
  db : DB
deriving DecidableEq

/-- Source `razorpay_webhook` (payments.py lines 105-219). `raw` is the raw body,
`sig` the `X-Razorpay-Signature` header (`""` when absent), `pj` the parsed
JSON body. -/
def razorpay_webhook (hmac : String → String → String)
    (parse : String → Option Nat) (webhook_secret : String) (db : DB)
    (raw : String) (sig : String) (pj : WebhookPayload) : EndpointResult Ack :=
  if sig = "" then ⟨.error ⟨400, "Missing signature"⟩, db⟩
  else if ¬ verify_razorpay_webhook_signature hmac raw sig webhook_secret then
    ⟨.error ⟨400, "Invalid webhook signature"⟩, db⟩
  else
    let ext := extractWebhook pj
    match resolvePayment parse db ext with
    | none => ⟨.ok ⟨true⟩, db⟩
    | some pay =>
      if strTruthy ext.event_id ∧
          db.events.any (fun e =>
            decide (e.tenant_id = pay.tenant_id ∧ e.provider_event_id = ext.event_id)) then
        ⟨.ok ⟨true⟩, db⟩
      else
        let ev : PaymentEvent :=
          { tenant_id := pay.tenant_id
            provider := .RAZORPAY
            event_type := pyOrStr (some ext.event_type) "unknown"
            provider_event_id := ext.event_id
            provider_order_id :=
              if ext.provider_order_id ≠ "" then some ext.provider_order_id else none
            provider_payment_id :=
              if ext.provider_payment_id ≠ "" then some ext.provider_payment_id else none }
        let pay' : Payment :=
          { pay with
            status := webhookMappedStatus ext.status pay.status
            provider_payment_id :=
              if ext.provider_payment_id ≠ "" then some ext.provider_payment_id
              else pay.provider_payment_id }
        let appointments' :=
          match db.appointments.find? (fun a => decide (a.id = pay.appointment_id)) with
          | none => db.appointments
          | some a =>
              db.appointments.map (fun x =>
                if x.id = a.id then
                  { a with payment_status := mirrorApptStatus pay'.status a.payment_status }
                else x)
        ⟨.ok ⟨true⟩,
          { db with
            payments := db.payments.map (fun x => if x.id = pay.id then pay' else x)
            events := db.events ++ [ev]
            appointments := appointments' }⟩

/-- Source `RazorpayVerifyIn` (schemas/payment.py). -/
structure RazorpayVerifyIn where
  payment_id : Nat
  razorpay_order_id : String
  razorpay_payment_id : String
  razorpay_signature : String
deriving DecidableEq

/-- The response of `razorpay_verify`:
`{"success": True, "payment_status": pay.status}`. -/
structure VerifyOut where
  success : Bool
  payment_status : PaymentStatus
deriving DecidableEq

/-- Status mapping of `razorpay_verify` (payments.py lines 251-256):
`captured` / `authorized` / `failed` overwrite unconditionally, anything
else leaves the current status. -/
def verifyMappedStatus (rp_status : String) (current : PaymentStatus) : PaymentStatus :=
  if rp_status = "captured" then .CAPTURED
  else if rp_status = "authorized" then .AUTHORIZED
  else if rp_status = "failed" then .FAILED
  else current

/-- Source `razorpay_verify` (payments.py lines 223-295). Injected collaborators:
`hmac` for the signature check, `fetchStatus` for
`client.payment.fetch(...).get("status", "")`, `receiptResult` for
`generate_receipt_pdf` (raises ↦ `.error`), `delayResult` for
`send_booking_email.delay` (raises ↦ `.error`). A raised exception
anywhere before `db.commit()` closes the session without commit, so the
committed `DB` is returned unchanged on those paths. -/
def razorpay_verify (hmac : String → String → String) (key_secret : String)
    (fetchStatus : String → String)
    (receiptResult : Response String) (delayResult : Response Unit)
    (db : DB) (tenant_id : Nat) (body : RazorpayVerifyIn) :
    EndpointResult VerifyOut :=
  match db.payments.find? (fun p =>
      decide (p.id = body.payment_id ∧ p.tenant_id = tenant_id)) with
  | none => ⟨.error ⟨404, "Payment not found"⟩, db⟩
  | some pay =>
    if pay.provider_order_id ≠ body.razorpay_order_id then
      ⟨.error ⟨400, "Order ID mismatch"⟩, db⟩
    else if ¬ verify_razorpay_checkout_signature hmac body.razorpay_order_id
        body.razorpay_payment_id body.razorpay_signature key_secret then
      ⟨.error ⟨400, "Invalid signature"⟩, db⟩
    else
      let rp_status := fetchStatus body.razorpay_payment_id
      let pay' : Payment :=
        { pay with
          provider_payment_id := some body.razorpay_payment_id
          status := verifyMappedStatus rp_status pay.status }
      match db.appointments.find? (fun a =>
          decide (a.id = pay.appointment_id ∧ a.tenant_id = tenant_id)) with
      | none => ⟨.ok ⟨true, pay'.status⟩, db⟩
      | some appt =>
        if pay'.status = .CAPTURED then
          match receiptResult with
          | .error e => ⟨.error e, db⟩
          | .ok _pdf =>
            match delayResult with
            | .error e => ⟨.error e, db⟩
            | .ok _ =>
              let ev : PaymentEvent :=
                { tenant_id := tenant_id
                  provider := .RAZORPAY
                  event_type := "checkout.verified"
                  provider_event_id := none
                  provider_order_id := some body.razorpay_order_id
                  provider_payment_id := some body.razorpay_payment_id }
              ⟨.ok ⟨true, pay'.status⟩,
                { db with
                  payments := db.payments.map (fun x => if x.id = pay.id then pay' else x)
                  appointments := db.appointments.map (fun x =>
                    if x.id = appt.id then { appt with payment_status := .PAID } else x)
                  events := db.events ++ [ev] }⟩
        else
          ⟨.ok ⟨true, pay'.status⟩, db⟩

/-- Source `RefundIn` (schemas/payment.py): `amount = None` means full refund. -/
structure RefundIn where
  payment_id : Nat
  amount : Option ℚ
deriving DecidableEq

/-- The provider's refund response (`client.payment.refund(...)`); only its
`id` is read back. -/
structure RefundResponse where
  id : Option String
deriving DecidableEq

/-- The response of `razorpay_refund`. -/
structure RefundOut where
  success : Bool
  refund : RefundResponse
deriving DecidableEq

/-- Result of `razorpay_refund`, recording the provider refund call made
(provider payment id, optional minor-unit amount) when one was issued. -/
structure RefundResult where
  response : Response RefundOut
  db : DB
  providerCall : Option (String × Option ℤ)
deriving DecidableEq

/-- The part of `razorpay_refund` after all precondition checks
(payments.py lines 326-348): issue the provider refund, set the payment to
`REFUNDED`, mirror the appointment, append the `refund.created` event and
commit. -/
def razorpay_refund_apply (refundCall : String → Option ℤ → RefundResponse)
    (db : DB) (tenant_id : Nat) (pay : Payment) (minor : Option ℤ) : RefundResult :=
  let ppid := pay.provider_payment_id.getD ""
  let refund := refundCall ppid minor
  let pay' : Payment := { pay with status := .REFUNDED }
  let appointments' :=
    match db.appointments.find? (fun a =>
        decide (a.id = pay.appointment_id ∧ a.tenant_id = tenant_id)) with
    | none => db.appointments
    | some appt =>
        db.appointments.map (fun x =>
          if x.id = appt.id then { appt with payment_status := .REFUNDED } else x)
  let ev : PaymentEvent :=
    { tenant_id := tenant_id
      provider := .RAZORPAY
      event_type := "refund.created"
      provider_event_id := refund.id
      provider_order_id := some pay.provider_order_id
      provider_payment_id := pay.provider_payment_id }
  ⟨.ok ⟨true, refund⟩,
    { db with
      payments := db.payments.map (fun x => if x.id = pay.id then pay' else x)
      appointments := appointments'
      events := db.events ++ [ev] },
    some (ppid, minor)⟩

/-- Source `razorpay_refund` (payments.py lines 298-348). `refundCall` injects the
provider's response to `client.payment.refund(provider_payment_id,
refund_payload)`. -/
def razorpay_refund (refundCall : String → Option ℤ → RefundResponse)
    (db : DB) (tenant_id : Nat) (body : RefundIn) : RefundResult :=
  match db.payments.find? (fun p =>
      decide (p.id = body.payment_id ∧ p.tenant_id = tenant_id)) with
  | none => ⟨.error ⟨404, "Payment not found"⟩, db, none⟩
  | some pay =>
    if pay.provider ≠ .RAZORPAY then
      ⟨.error ⟨400, "Not a Razorpay payment"⟩, db, none⟩
    else if ¬ strTruthy pay.provider_payment_id then
      ⟨.error ⟨400, "Payment not captured / missing provider_payment_id"⟩, db, none⟩
    else
      match body.amount with
      | some amt =>
          if amt ≤ 0 then ⟨.error ⟨400, "Refund amount must be > 0"⟩, db, none⟩
          else razorpay_refund_apply refundCall db tenant_id pay (some (rupees_to_paisa amt))
      | none => razorpay_refund_apply refundCall db tenant_id pay none

/-- The `data` object of `create_razorpay_order`'s response. -/
structure CreateOrderData where
  payment_id : Nat
  provider : PaymentProvider
  provider_order_id : String
  amount : ℚ
  currency : String
  customer_name : String
  customer_email : String
  customer_phone : String
deriving DecidableEq

/-- Result of `create_razorpay_order`, recording the minor-unit amount sent
in the provider order request when the call was reached. -/
structure CreateOrderResult where
  response : Response CreateOrderData
  db : DB
  providerOrderAmount : Option ℤ
deriving DecidableEq

/-- Source `create_razorpay_order` (payments.py lines 22-102). `order_id` injects
the id of the order the provider returns; `newPayId` the fresh primary key
of the inserted `Payment` row. -/
def create_razorpay_order (parse : String → Option Nat) (order_id : String)
    (newPayId : Nat) (db : DB) (tenant_id_str : Option String)
    (appointment_id : Nat) (amount : ℚ) (currency : String) : CreateOrderResult :=
  if ¬ strTruthy tenant_id_str then
    ⟨.error ⟨400, "Missing tenant_id in token"⟩, db, none⟩
  else
    match parse (tenant_id_str.getD "") with
    | none => ⟨.error ⟨400, "Invalid tenant_id format"⟩, db, none⟩
    | some tenant_id =>
      match db.appointments.find? (fun a =>
          decide (a.tenant_id = tenant_id ∧ a.id = appointment_id)) with
      | none => ⟨.error ⟨404, "Appointment not found"⟩, db, none⟩
      | some appt =>
        let appt' : Appointment :=
          { appt with
            amount_due := some amount
            currency := some currency
            payment_status := .UNPAID }
        let minor : ℤ := rupees_to_paisa amount
        let customer := db.customers.find? (fun c =>
          decide (c.tenant_id = tenant_id ∧ c.id = appt.customer_id))
        let pay : Payment :=
          { id := newPayId
            tenant_id := tenant_id
            appointment_id := appt.id
            customer_id := appt.customer_id
            provider := .RAZORPAY
            provider_order_id := order_id
            provider_payment_id := none
            amount := amount
            currency := currency
            status := .CREATED }
        let ev : PaymentEvent :=
          { tenant_id := tenant_id
            provider := .RAZORPAY
            event_type := "order.created"
            provider_event_id := some order_id
            provider_order_id := some order_id
            provider_payment_id := none }
        ⟨.ok
          { payment_id := newPayId
            provider := .RAZORPAY
            provider_order_id := order_id
            amount := amount
            currency := currency
            customer_name := (customer.map Customer.full_name).getD ""
            customer_email := (customer.map Customer.email).getD ""
            customer_phone := (customer.map Customer.phone).getD "" },
          { db with
            payments := db.payments ++ [pay]
            events := db.events ++ [ev]
            appointments := db.appointments.map (fun x =>
              if x.id = appt.id then appt' else x) },
          some minor⟩

/-! Concrete fixtures used by the witnesses and counterexamples. -/

/-- A concrete stand-in for HMAC-SHA256 (key, message ↦ digest). -/
def hmacFn : String → String → String := fun k m => "hx:" ++ k ++ ":" ++ m

/-- A concrete stand-in for `uuid.UUID` parsing. -/
def parseFn : String → Option Nat := fun s => if s = "t1" then some 1 else none

/-- A payment already captured, provider payment id recorded. -/
def payCaptured : Payment :=
  ⟨10, 1, 20, 30, .RAZORPAY, "order_abc", some "pay_1", 900, "INR", .CAPTURED⟩

/-- The appointment mirrored by `payCaptured`. -/
def apptA : Appointment := ⟨20, 1, 30, some 900, some "INR", .PAID⟩

/-- A customer row for order creation responses. -/
def custA : Customer := ⟨30, 1, "Asha", "asha@example.com", "9999"⟩

/-- The `order.created` ledger event written when `payCaptured`'s order was
created. -/
def evOrderCreated : PaymentEvent :=
  ⟨1, .RAZORPAY, "order.created", some "order_abc", some "order_abc", none⟩

/-- A previously processed `payment.captured` webhook event. -/
def evCapturedSeen : PaymentEvent :=
  ⟨1, .RAZORPAY, "payment.captured", some "evt_1", some "order_abc", some "pay_1"⟩

/-- Database holding the captured payment and its order event. -/
def dbCaptured : DB := ⟨[payCaptured], [evOrderCreated], [apptA], [custA]⟩

/-- Database where the `payment.captured` webhook was already processed. -/
def dbDup : DB := ⟨[payCaptured], [evOrderCreated, evCapturedSeen], [apptA], [custA]⟩

/-- A late `payment.authorized` webhook envelope for `order_abc`. -/
def pjLateAuthorized : WebhookPayload :=
  { event := some "payment.authorized"
    payment := some
      { id := some "evt_late"
        order_id := some "order_abc"
        status := some "authorized"
        notes := some [("tenant_id", "t1")] } }

/-- A payment authorized (never captured) whose provider payment id was
recorded by an `payment.authorized` webhook. -/
def payAuthorized : Payment :=
  ⟨11, 1, 21, 31, .RAZORPAY, "order_def", some "pay_2", 500, "INR", .AUTHORIZED⟩

/-- The appointment mirrored by `payAuthorized`. -/
def apptB : Appointment := ⟨21, 1, 31, some 500, some "INR", .UNPAID⟩

/-- Database holding only the authorized payment. -/
def dbAuthorized : DB := ⟨[payAuthorized], [], [apptB], []⟩

/-- A provider refund call stub. -/
def refundFn : String → Option ℤ → RefundResponse := fun _ _ => ⟨some "rfnd_1"⟩

/-- A freshly created payment awaiting checkout. -/
def payCreated : Payment :=
  ⟨12, 1, 22, 32, .RAZORPAY, "order_ghi", none, 700, "INR", .CREATED⟩

/-- The appointment mirrored by `payCreated`. -/
def apptC : Appointment := ⟨22, 1, 32, some 700, some "INR", .UNPAID⟩

/-- Database holding only the created payment. -/
def dbCreated : DB := ⟨[payCreated], [], [apptC], []⟩

/-- A replayed-capture webhook carrying a different provider payment id. -/
def pjOtherPaymentId : WebhookPayload :=
  { event := some "payment.captured"
    payment := some
      { id := some "pay_2b"
        order_id := some "order_abc"
        status := some "captured"
        notes := none } }

/-- A `payment.captured` webhook envelope whose event id `evt_1` is already
in `dbDup`'s ledger. -/
def pjDup : WebhookPayload :=
  { event := some "payment.captured"
    payment := some
      { id := some "evt_1"
        order_id := some "order_abc"
        status := some "captured"
        notes := none } }

/-- A webhook envelope referencing an order id no payment has. -/
def pjNoMatch : WebhookPayload :=
  { event := some "payment.captured"
    payment := some
      { id := some "evt_9"
        order_id := some "order_zzz"
        status := some "captured"
        notes := none } }

/-- A replayed-capture webhook carrying yet another provider payment id. -/
def pjThirdPaymentId : WebhookPayload :=
  { event := some "payment.captured"
    payment := some
      { id := some "pay_3c"
        order_id := some "order_abc"
        status := some "captured"
        notes := none } }

/-- An appointment with no payment yet, for the C10 witness. -/
def apptW : Appointment := ⟨25, 1, 35, none, none, .UNPAID⟩

/-- An empty-but-for-`apptW` database, for the C10 witness. -/
def dbEmptyW : DB := ⟨[], [], [apptW], []⟩

/-! General lemmas. -/

/-- The function `rupees_to_paisa` computes exactly `round (amount * 100)` (Mathlib's
`round`) whenever `amount * 100` is not a half-integer; on ties Python
rounds half to even while Mathlib's `round` rounds half up. -/
theorem rupees_to_paisa_eq_round (q : ℚ) (h : Int.fract (q * 100) ≠ 1/2) :
    rupees_to_paisa q = round (q * 100) := by
  have hd0 : ((q.den : ℕ) : ℚ) ≠ 0 := by exact_mod_cast q.den_pos.ne'
  have hdpos : (0 : ℚ) < ((q.den : ℕ) : ℚ) := by exact_mod_cast q.den_pos
  have hxd : q * 100 = ((100 * q.num : ℤ) : ℚ) / ((q.den : ℕ) : ℚ) := by
    conv_lhs => rw [← Rat.num_div_den q]
    push_cast
    ring
  have hfloor : ⌊q * 100⌋ = (100 * q.num).fdiv (q.den : ℤ) := by
    rw [hxd, Rat.floor_intCast_div_natCast,
      Int.fdiv_eq_ediv _ (by positivity)]
  have hfract : Int.fract (q * 100) =
      ((100 * q.num - (100 * q.num).fdiv (q.den : ℤ) * (q.den : ℤ) : ℤ) : ℚ) /
        ((q.den : ℕ) : ℚ) := by
    rw [Int.fract, hfloor]
    rw [eq_div_iff hd0]
    push_cast
    rw [hxd]
    field_simp
    ring
  have hxsplit : q * 100 + 1/2 =
      (((100 * q.num).fdiv (q.den : ℤ) : ℤ) : ℚ) + (Int.fract (q * 100) + 1/2) := by
    have h2 := Int.floor_add_fract (q * 100)
    rw [hfloor] at h2
    linarith
  rcases lt_trichotomy
      (2 * (100 * q.num - (100 * q.num).fdiv (q.den : ℤ) * (q.den : ℤ)))
      ((q.den : ℤ)) with hlt | heq | hgt
  · have hfr2 : Int.fract (q * 100) < 1/2 := by
      rw [hfract, div_lt_iff₀ hdpos]
      have hc : ((2 * (100 * q.num - (100 * q.num).fdiv (q.den : ℤ) * (q.den : ℤ)) : ℤ) : ℚ) <
          (((q.den : ℤ) : ℤ) : ℚ) := by exact_mod_cast hlt
      push_cast at hc ⊢
      linarith
    rw [rupees_to_paisa]
    rw [if_pos hlt, round_eq, hxsplit, Int.floor_int_add]
    have hz : ⌊Int.fract (q * 100) + 1/2⌋ = 0 := by
      rw [Int.floor_eq_zero_iff, Set.mem_Ico]
      have := Int.fract_nonneg (q * 100)
      constructor <;> linarith
    rw [hz, add_zero]
  · exfalso
    apply h
    rw [hfract, div_eq_iff hd0]
    have hc : ((2 * (100 * q.num - (100 * q.num).fdiv (q.den : ℤ) * (q.den : ℤ)) : ℤ) : ℚ) =
        (((q.den : ℤ) : ℤ) : ℚ) := by exact_mod_cast heq
    push_cast at hc ⊢
    linarith
  · have hfr2 : 1/2 < Int.fract (q * 100) := by
      rw [hfract, lt_div_iff₀ hdpos]
      have hc : (((q.den : ℤ) : ℤ) : ℚ) <
          ((2 * (100 * q.num - (100 * q.num).fdiv (q.den : ℤ) * (q.den : ℤ)) : ℤ) : ℚ) := by
        exact_mod_cast hgt
      push_cast at hc ⊢
      linarith
    rw [rupees_to_paisa]
    rw [if_neg (not_lt.mpr hgt.le), if_pos hgt, round_eq, hxsplit, Int.floor_int_add]
    have hone : ⌊Int.fract (q * 100) + 1/2⌋ = 1 := by
      rw [Int.floor_eq_iff]
      have := Int.fract_lt_one (q * 100)
      push_cast
      constructor <;> linarith
    rw [hone]

/-- Replacing by primary key and then looking up the same primary key
returns the replacement, provided the lookup found the original row first
and the replacement keeps the id. -/
theorem find?_update_by_id (l : List Payment) (pay p' : Payment)
    (hid : p'.id = pay.id)
    (hfirst : l.find? (fun q => decide (q.id = pay.id)) = some pay) :
    (l.map (fun x => if x.id = pay.id then p' else x)).find?
      (fun q => decide (q.id = pay.id)) = some p' := by
  rw [List.find?_map]
  have hcomp : ((fun q => decide (q.id = pay.id)) ∘
      (fun x => if x.id = pay.id then p' else x)) =
      (fun x => decide (x.id = pay.id)) := by
    funext x
    by_cases hx : x.id = pay.id
    · simp [hx, hid]
    · simp [hx]
  rw [hcomp, hfirst]
  simp

/-- Helper: an authenticated webhook that resolves a payment and whose
extracted event id is truthy and already present in the ledger for that
payment's tenant acknowledges success and leaves the database untouched. -/
theorem webhook_dup_ack_aux (hmac : String → String → String)
    (parse : String → Option Nat) (secret raw sig : String) (db : DB)
    (pj : WebhookPayload) (pay : Payment)
    (hs0 : sig ≠ "")
    (hs1 : verify_razorpay_webhook_signature hmac raw sig secret = true)
    (hres : resolvePayment parse db (extractWebhook pj) = some pay)
    (hid : strTruthy (extractWebhook pj).event_id = true)
    (hdup : db.events.any (fun e =>
        decide (e.tenant_id = pay.tenant_id ∧
          e.provider_event_id = (extractWebhook pj).event_id)) = true) :
    razorpay_webhook hmac parse secret db raw sig pj = ⟨.ok ⟨true⟩, db⟩ := by
  unfold razorpay_webhook
  rw [if_neg hs0, if_neg (by simp [hs1])]
  simp only [hres]
  rw [if_pos ⟨hid, hdup⟩]

/-- C3: a webhook delivery whose extracted `provider_event_id` already has a
`PaymentEvent` with the same `(tenant_id, provider_event_id)` acknowledges
success, appends no `PaymentEvent`, and leaves `Payment.status` and
`Appointment.payment_status` unchanged: the committed database is returned
as-is. -/
theorem webhook_duplicate_delivery_is_noop (hmac : String → String → String)
    (parse : String → Option Nat) (secret raw sig : String) (db : DB)
    (pj : WebhookPayload) (pay : Payment)
    (hs0 : sig ≠ "")
    (hs1 : verify_razorpay_webhook_signature hmac raw sig secret = true)
    (hres : resolvePayment parse db (extractWebhook pj) = some pay)
    (hid : strTruthy (extractWebhook pj).event_id = true)
    (hdup : db.events.any (fun e =>
        decide (e.tenant_id = pay.tenant_id ∧
          e.provider_event_id = (extractWebhook pj).event_id)) = true) :
    razorpay_webhook hmac parse secret db raw sig pj = ⟨.ok ⟨true⟩, db⟩ :=
  webhook_dup_ack_aux hmac parse secret raw sig db pj pay hs0 hs1 hres hid hdup

/-- Witness for C3: a second delivery of the already-recorded `evt_1`
capture webhook is acknowledged and changes nothing. -/
theorem webhook_duplicate_delivery_is_noop_witness :
    razorpay_webhook hmacFn parseFn "whsec" dbDup "rawbody"
      (hmacFn "whsec" "rawbody") pjDup = ⟨.ok ⟨true⟩, dbDup⟩ :=
  webhook_duplicate_delivery_is_noop hmacFn parseFn "whsec" "rawbody"
    (hmacFn "whsec" "rawbody") dbDup pjDup payCaptured (by decide) (by decide)
    (by decide) (by decide) (by decide)

/-- C5: an authenticated webhook whose extracted order id matches no stored
payment (hint lookup and order-id-only fallback both miss, i.e.
`resolvePayment` returns `none`) responds with success and writes no rows. -/
theorem webhook_unmatched_payment_is_noop (hmac : String → String → String)
    (parse : String → Option Nat) (secret raw sig : String) (db : DB)
    (pj : WebhookPayload)
    (hs0 : sig ≠ "")
    (hs1 : verify_razorpay_webhook_signature hmac raw sig secret = true)
    (hres : resolvePayment parse db (extractWebhook pj) = none) :
    razorpay_webhook hmac parse secret db raw sig pj = ⟨.ok ⟨true⟩, db⟩ := by
  unfold razorpay_webhook
  rw [if_neg hs0, if_neg (by simp [hs1])]
  simp only [hres]

/-- Witness for C5: a capture webhook for the unknown `order_zzz` is an
acknowledged no-op. -/
theorem webhook_unmatched_payment_is_noop_witness :
    razorpay_webhook hmacFn parseFn "whsec" dbCaptured "rawbody"
      (hmacFn "whsec" "rawbody") pjNoMatch = ⟨.ok ⟨true⟩, dbCaptured⟩ :=
  webhook_unmatched_payment_is_noop hmacFn parseFn "whsec" "rawbody"
    (hmacFn "whsec" "rawbody") dbCaptured pjNoMatch (by decide) (by decide)
    (by decide)

/-- C4: checkout verification whose client-supplied signature differs from
the HMAC-SHA256 of `"{orderId}|{paymentId}"` under the key secret is
rejected with a 400 authentication error and the database — in particular
`Payment.status` — is untouched, whatever status the provider would have
reported (`fetchStatus` is arbitrary). -/
theorem verify_forged_signature_rejected (hmac : String → String → String)
    (key_secret : String) (fetchStatus : String → String)
    (receiptResult : Response String) (delayResult : Response Unit)
    (db : DB) (tenant_id : Nat) (body : RazorpayVerifyIn) (pay : Payment)
    (hfind : db.payments.find? (fun p =>
        decide (p.id = body.payment_id ∧ p.tenant_id = tenant_id)) = some pay)
    (horder : pay.provider_order_id = body.razorpay_order_id)
    (hsig : body.razorpay_signature ≠
        hmac key_secret (body.razorpay_order_id ++ "|" ++ body.razorpay_payment_id)) :
    razorpay_verify hmac key_secret fetchStatus receiptResult delayResult
      db tenant_id body = ⟨.error ⟨400, "Invalid signature"⟩, db⟩ := by
  unfold razorpay_verify
  simp only [hfind]
  rw [if_neg (by simp [horder])]
  rw [if_pos (by
    simp only [verify_razorpay_checkout_signature, decide_eq_true_eq]
    exact fun h => hsig h.symm)]

/-- Witness for C4: a forged signature on `payCaptured`'s verification is
rejected even though the provider reports the payment as captured. -/
theorem verify_forged_signature_rejected_witness :
    razorpay_verify hmacFn "keysec" (fun _ => "captured") (.ok "pdf") (.ok ())
      dbCaptured 1 ⟨10, "order_abc", "pay_1", "forged"⟩ =
      ⟨.error ⟨400, "Invalid signature"⟩, dbCaptured⟩ :=
  verify_forged_signature_rejected hmacFn "keysec" (fun _ => "captured")
    (.ok "pdf") (.ok ()) dbCaptured 1 ⟨10, "order_abc", "pay_1", "forged"⟩
    payCaptured (by decide) (by decide) (by decide)

/-- C1 (code evaluated at the failing input): `payCaptured` has status
`CAPTURED`, yet a late authenticated `payment.authorized` webhook for the
same order is applied — the webhook acknowledges success and
`Payment.status` regresses to `AUTHORIZED`. The status-mapping block of
`razorpay_webhook` assigns unconditionally, with no reachability check. -/
theorem webhook_applies_regressing_status :
    payCaptured.status = .CAPTURED ∧
    (razorpay_webhook hmacFn parseFn "whsec" dbCaptured "rawbody"
        (hmacFn "whsec" "rawbody") pjLateAuthorized).response = .ok ⟨true⟩ ∧
    ((razorpay_webhook hmacFn parseFn "whsec" dbCaptured "rawbody"
        (hmacFn "whsec" "rawbody") pjLateAuthorized).db.payments.find?
      (fun p => decide (p.id = 10))).map Payment.status = some .AUTHORIZED := by
  decide

/-- C2 (code evaluated at the failing input): `payAuthorized` has status
`AUTHORIZED` (never captured) but carries a `provider_payment_id`, so
`razorpay_refund` accepts the refund: it succeeds, sets the status to
`REFUNDED`, and appends a `refund.created` `PaymentEvent` — instead of the
`InvalidState` rejection the claim requires. -/
theorem refund_applied_to_authorized_payment :
    payAuthorized.status = .AUTHORIZED ∧
    (razorpay_refund refundFn dbAuthorized 1 ⟨11, none⟩).response =
      .ok ⟨true, ⟨some "rfnd_1"⟩⟩ ∧
    ((razorpay_refund refundFn dbAuthorized 1 ⟨11, none⟩).db.payments.find?
      (fun p => decide (p.id = 11))).map Payment.status = some .REFUNDED ∧
    (razorpay_refund refundFn dbAuthorized 1 ⟨11, none⟩).db.events.length = 1 := by
  decide

/-- C7 (code evaluated at the failing input): the provider reports
`captured`, but receipt rendering raises; because `generate_receipt_pdf`
runs before `db.commit()` in the captured branch, the exception aborts the
request, the transition is never committed (`db` unchanged, no
`checkout.verified` event) and the error surfaces to the caller. -/
theorem verify_receipt_failure_aborts_commit :
    razorpay_verify hmacFn "keysec" (fun _ => "captured")
        (.error ⟨500, "Internal Server Error"⟩) (.ok ())
        dbCreated 1 ⟨12, "order_ghi", "pay_9", hmacFn "keysec" "order_ghi|pay_9"⟩ =
      ⟨.error ⟨500, "Internal Server Error"⟩, dbCreated⟩ := by
  decide

/-- Counterexample to C6: `payCaptured.provider_payment_id` is already set
to `"pay_1"`, yet an authenticated webhook carrying payment entity id
`"pay_2b"` (a fresh event id, so no dedup) overwrites it — the stored value
is not immutable and the webhook does not check that it is unset. -/
theorem webhook_overwrites_set_provider_payment_id :
    payCaptured.provider_payment_id = some "pay_1" ∧
    ((razorpay_webhook hmacFn parseFn "whsec" dbCaptured "rawbody"
        (hmacFn "whsec" "rawbody") pjOtherPaymentId).db.payments.find?
      (fun p => decide (p.id = 10))).map Payment.provider_payment_id =
      some (some "pay_2b") := by
  decide

/-- C6 as amended: whenever an authenticated, non-duplicate webhook
resolves a payment and extracts a non-empty `provider_payment_id`, it
writes that value into the payment unconditionally — also when a different
value was already stored. -/
theorem webhook_sets_provider_payment_id_unconditionally
    (hmac : String → String → String) (parse : String → Option Nat)
    (secret raw sig : String) (db : DB) (pj : WebhookPayload) (pay : Payment)
    (hs0 : sig ≠ "")
    (hs1 : verify_razorpay_webhook_signature hmac raw sig secret = true)
    (hres : resolvePayment parse db (extractWebhook pj) = some pay)
    (hfirst : db.payments.find? (fun q => decide (q.id = pay.id)) = some pay)
    (hdup : db.events.any (fun e =>
        decide (e.tenant_id = pay.tenant_id ∧
          e.provider_event_id = (extractWebhook pj).event_id)) = false)
    (hpp : (extractWebhook pj).provider_payment_id ≠ "") :
    ((razorpay_webhook hmac parse secret db raw sig pj).db.payments.find?
        (fun q => decide (q.id = pay.id))).map Payment.provider_payment_id =
      some (some (extractWebhook pj).provider_payment_id) := by
  unfold razorpay_webhook
  rw [if_neg hs0, if_neg (by simp [hs1])]
  simp only [hres]
  rw [if_neg (by rw [hdup]; simp)]
  have hmain := find?_update_by_id db.payments pay
    ({ pay with
        status := webhookMappedStatus (extractWebhook pj).status pay.status
        provider_payment_id :=
          if (extractWebhook pj).provider_payment_id ≠ "" then
            some (extractWebhook pj).provider_payment_id
          else pay.provider_payment_id })
    rfl hfirst
  rw [hmain]
  simp [hpp]

/-- Witness for C6 as amended: the stored `"pay_1"` is replaced by the
extracted `"pay_3c"`. -/
theorem webhook_sets_provider_payment_id_unconditionally_witness :
    ((razorpay_webhook hmacFn parseFn "whsec" dbCaptured "rawbody"
        (hmacFn "whsec" "rawbody") pjThirdPaymentId).db.payments.find?
      (fun q => decide (q.id = 10))).map Payment.provider_payment_id =
      some (some "pay_3c") :=
  webhook_sets_provider_payment_id_unconditionally hmacFn parseFn "whsec"
    "rawbody" (hmacFn "whsec" "rawbody") dbCaptured pjThirdPaymentId
    payCaptured (by decide) (by decide) (by decide) (by decide) (by decide)
    (by decide)

/-- Counterexample to C9: the fetched status `"refunded"` is unrecognized
by the verify mapping, yet because the stored status is already `CAPTURED`
the captured branch runs and COMMITS — a `checkout.verified` event is
appended. The claim that no commit occurs when the fetched status is
unrecognized is false. -/
theorem verify_commits_on_unrecognized_status_when_captured :
    (razorpay_verify hmacFn "keysec" (fun _ => "refunded") (.ok "pdf") (.ok ())
        dbCaptured 1
        ⟨10, "order_abc", "pay_1", hmacFn "keysec" "order_abc|pay_1"⟩).db.events.length =
      dbCaptured.events.length + 1 ∧
    (razorpay_verify hmacFn "keysec" (fun _ => "refunded") (.ok "pdf") (.ok ())
        dbCaptured 1
        ⟨10, "order_abc", "pay_1", hmacFn "keysec" "order_abc|pay_1"⟩).response =
      .ok ⟨true, .CAPTURED⟩ := by
  decide

/-- C9 as amended: on the authenticated path, `razorpay_verify` commits
exactly when the post-mapping status (`verifyMappedStatus` of the fetched
status over the stored one) is `CAPTURED` and the appointment is found;
whenever the post-mapping status is not `CAPTURED` — fetched status maps to
`FAILED` or `AUTHORIZED`, or is unrecognized over a non-captured stored
status — or the appointment is missing, no commit is reached before the
session closes, the in-memory changes are discarded (`db` unchanged) and
the endpoint still returns success with the mapped status. -/
theorem verify_no_commit_unless_post_status_captured
    (hmac : String → String → String) (key_secret : String)
    (fetchStatus : String → String)
    (receiptResult : Response String) (delayResult : Response Unit)
    (db : DB) (tenant_id : Nat) (body : RazorpayVerifyIn) (pay : Payment)
    (hfind : db.payments.find? (fun p =>
        decide (p.id = body.payment_id ∧ p.tenant_id = tenant_id)) = some pay)
    (horder : pay.provider_order_id = body.razorpay_order_id)
    (hsig : verify_razorpay_checkout_signature hmac body.razorpay_order_id
        body.razorpay_payment_id body.razorpay_signature key_secret = true)
    (h : verifyMappedStatus (fetchStatus body.razorpay_payment_id) pay.status ≠
          .CAPTURED ∨
        db.appointments.find? (fun a =>
          decide (a.id = pay.appointment_id ∧ a.tenant_id = tenant_id)) = none) :
    razorpay_verify hmac key_secret fetchStatus receiptResult delayResult
        db tenant_id body =
      ⟨.ok ⟨true,
        verifyMappedStatus (fetchStatus body.razorpay_payment_id) pay.status⟩,
        db⟩ := by
  unfold razorpay_verify
  simp only [hfind]
  rw [if_neg (by simp [horder]), if_neg (by simp [hsig])]
  rcases h with h1 | h2
  · cases hf : db.appointments.find? (fun a =>
        decide (a.id = pay.appointment_id ∧ a.tenant_id = tenant_id)) with
    | none => simp only [hf]
    | some appt =>
        simp only [hf]
        rw [if_neg (by simpa using h1)]
  · simp only [h2]

/-- Witness for C9 as amended: the provider reports `failed` for the
already-captured `payCaptured`; the response is success with `FAILED`, and
nothing is committed (the in-memory regression is discarded). -/
theorem verify_no_commit_unless_post_status_captured_witness :
    razorpay_verify hmacFn "keysec" (fun _ => "failed") (.ok "pdf") (.ok ())
        dbCaptured 1 ⟨10, "order_abc", "pay_1", hmacFn "keysec" "order_abc|pay_1"⟩ =
      ⟨.ok ⟨true, .FAILED⟩, dbCaptured⟩ :=
  verify_no_commit_unless_post_status_captured hmacFn "keysec"
    (fun _ => "failed") (.ok "pdf") (.ok ()) dbCaptured 1
    ⟨10, "order_abc", "pay_1", hmacFn "keysec" "order_abc|pay_1"⟩ payCaptured
    (by decide) (by decide) (by decide) (Or.inl (by decide))

/-- C8: every amount sent to the provider is the major-unit decimal
converted by `round(amount * 100)`: order creation for amount `A` sends
`round (A * 100)` (away from rounding ties, where Python's half-to-even and
Mathlib's half-up `round` agree), and a partial refund of 300.00 on the
`CAPTURED` payment of 900.00 issues the provider refund call with
minor-unit amount 30000. -/
theorem minor_unit_conversion (parse : String → Option Nat)
    (order_id : String) (newPayId : Nat) (db : DB) (tid : Option String)
    (appointment_id : Nat) (amount : ℚ) (currency : String) (t : Nat)
    (appt : Appointment)
    (h1 : strTruthy tid = true)
    (h2 : parse (tid.getD "") = some t)
    (h3 : db.appointments.find? (fun a =>
        decide (a.tenant_id = t ∧ a.id = appointment_id)) = some appt)
    (hne : Int.fract (amount * 100) ≠ 1/2) :
    (create_razorpay_order parse order_id newPayId db tid appointment_id
        amount currency).providerOrderAmount = some (round (amount * 100)) ∧
    (razorpay_refund refundFn dbCaptured 1 ⟨10, some 300⟩).providerCall =
      some ("pay_1", some 30000) := by
  constructor
  · unfold create_razorpay_order
    rw [if_neg (by simp [h1])]
    simp only [h2, h3]
    rw [rupees_to_paisa_eq_round amount hne]
  · decide

/-- Witness for C8: order creation for amount 450 sends 45000 = round
(450 * 100), and the 300.00 refund call carries 30000. -/
theorem minor_unit_conversion_witness :
    (create_razorpay_order parseFn "order_new" 40 dbCaptured (some "t1") 20
        450 "INR").providerOrderAmount = some (round ((450 : ℚ) * 100)) ∧
    (razorpay_refund refundFn dbCaptured 1 ⟨10, some 300⟩).providerCall =
      some ("pay_1", some 30000) :=
  minor_unit_conversion parseFn "order_new" 40 dbCaptured (some "t1") 20
    450 "INR" 1 apptA (by decide) (by decide) (by decide)
    (by rw [show ((450 : ℚ) * 100) = ((45000 : ℤ) : ℚ) by norm_num]
        rw [Int.fract_intCast]
        norm_num)

/-- C10: order creation appends the `order.created` event with
`provider_event_id` equal to the provider order id, so a later webhook
whose envelope contains only an `order` entity with that id (its extracted
event id then equals the order id) is classified as a duplicate: it is
acknowledged with success, appends no `PaymentEvent` and changes no
payment — the database after order creation is returned untouched. -/
theorem order_created_event_dedups_order_webhook
    (hmac : String → String → String) (parse : String → Option Nat)
    (secret raw sig : String) (db : DB) (tid : Option String) (t : Nat)
    (order_id : String) (newPayId : Nat) (appointment_id : Nat)
    (amount : ℚ) (currency : String) (appt : Appointment) (ent : Entity)
    (ev0 : Option String)
    (h1 : strTruthy tid = true)
    (h2 : parse (tid.getD "") = some t)
    (h3 : db.appointments.find? (fun a =>
        decide (a.tenant_id = t ∧ a.id = appointment_id)) = some appt)
    (hoid : order_id ≠ "")
    (hfresh : ∀ p ∈ db.payments, ¬ p.provider_order_id = order_id)
    (hs0 : sig ≠ "")
    (hs1 : verify_razorpay_webhook_signature hmac raw sig secret = true)
    (hent : ent.id = some order_id) (hnotes : ent.notes = none) :
    razorpay_webhook hmac parse secret
        (create_razorpay_order parse order_id newPayId db tid appointment_id
          amount currency).db raw sig ⟨ev0, none, some ent, none⟩ =
      ⟨.ok ⟨true⟩,
        (create_razorpay_order parse order_id newPayId db tid appointment_id
          amount currency).db⟩ := by
  have hdb : (create_razorpay_order parse order_id newPayId db tid
      appointment_id amount currency).db =
      { payments := db.payments ++
          [⟨newPayId, t, appt.id, appt.customer_id, .RAZORPAY, order_id,
            none, amount, currency, .CREATED⟩]
        events := db.events ++
          [⟨t, .RAZORPAY, "order.created", some order_id, some order_id, none⟩]
        appointments := db.appointments.map (fun x =>
          if x.id = appt.id then
            { appt with
              amount_due := some amount
              currency := some currency
              payment_status := .UNPAID }
          else x)
        customers := db.customers } := by
    unfold create_razorpay_order
    rw [if_neg (by simp [h1])]
    simp only [h2, h3]
  have hext : extractWebhook ⟨ev0, none, some ent, none⟩ =
      { event_type := ev0.getD ""
        event_id := some order_id
        provider_order_id := order_id
        provider_payment_id := ""
        status := pyOrStr ent.status ""
        tenant_id_str := none } := by
    simp [extractWebhook, pyOr, pyOrStr, pyOrDict, dictGet, strTruthy,
      dictTruthy, hent, hnotes, hoid]
  rw [hdb]
  apply webhook_dup_ack_aux hmac parse secret raw sig _ _
    ⟨newPayId, t, appt.id, appt.customer_id, .RAZORPAY, order_id, none,
      amount, currency, .CREATED⟩ hs0 hs1
  · unfold resolvePayment
    rw [hext]
    rw [if_neg (by simp [strTruthy])]
    rw [if_pos hoid]
    rw [List.find?_append]
    rw [List.find?_eq_none.mpr (by intro x hx; simpa using hfresh x hx)]
    simp
  · rw [hext]
    simp [strTruthy, hoid]
  · rw [hext]
    simp [List.any_append]

/-- Witness for C10: create an order (`order_w`), then deliver a webhook
holding only the order entity for `order_w`; it is acknowledged and the
post-creation database is unchanged. -/
theorem order_created_event_dedups_order_webhook_witness :
    razorpay_webhook hmacFn parseFn "whsec"
        (create_razorpay_order parseFn "order_w" 50 dbEmptyW (some "t1") 25
          600 "INR").db "rawbody" (hmacFn "whsec" "rawbody")
        ⟨some "order.paid", none,
          some ⟨some "order_w", none, none, some "paid", none⟩, none⟩ =
      ⟨.ok ⟨true⟩,
        (create_razorpay_order parseFn "order_w" 50 dbEmptyW (some "t1") 25
          600 "INR").db⟩ :=
  order_created_event_dedups_order_webhook hmacFn parseFn "whsec" "rawbody"
    (hmacFn "whsec" "rawbody") dbEmptyW (some "t1") 1 "order_w" 50 25 600
    "INR" apptW ⟨some "order_w", none, none, some "paid", none⟩
    (some "order.paid") (by decide) (by decide) (by decide) (by decide)
    (by decide) (by decide) (by decide) (by decide) (by decide)

end CRM
